import Mathlib

/-
  Verification development for the Position History Service (PHS) repository.

  This file gives a shallow embedding, in Lean 4, of the two core components of
  the repository:

  * `src/Server/api-provider/api-provider.py` — the SOAP service with
    `GetLocationHistory` (range reader) and `GetClosestEntryByTimestamp`
    (nearest-timestamp resolver with an expanding symmetric window), and
  * `src/Server/api-crawler/api-crawler.py` — the ingestion pipeline
    (`ISSCrawler.fetch_iss_data`, `InfluxDBWriter.write_data`,
    `Main.fetch_and_store_iss_data`).

  Modelling conventions:
  - Instants are modelled as `Int`, unix seconds in UTC (the code handles
    `datetime` objects in UTC at second resolution; every claim is phrased in
    seconds).
  - Coordinate values are modelled as `ℚ` (the Python code uses IEEE doubles;
    no claim depends on floating-point rounding, only on parse success and on
    which value is carried through, so an exact numeric field is a faithful
    stand-in).
  - The InfluxDB store is an external collaborator: it is modelled as a
    function from a query window to a response, which is either an error
    (the Python helper `read_data` catches the exception and returns `None`)
    or a flattened, ordered list of rows (the code flattens
    `table_list` into `data_points` in result order).
  - Python generators are modelled as the list of values they yield; a yielded
    `None` is modelled as `Option.none`.
-/

namespace PHS

/-- One row returned by the store (a pivoted InfluxDB record: `_time`,
`latitude`, `longitude`, `source`). -/
structure Rec where
  time : Int
  latitude : ℚ
  longitude : ℚ
  source : String
deriving DecidableEq

/-- The Spyne `LocationRecord` complex model of `api-provider.py`:
`timestamp` (integer unix seconds), `latitude`, `longitude`, `source`. -/
structure LocationRecord where
  timestamp : Int
  latitude : ℚ
  longitude : ℚ
  source : String
deriving DecidableEq

/-- Outcome of one store range query, as seen through
`InfluxDBReader.execute_read_request`: `err` is the `None` produced when
`read_data` catches an exception; `ok rows` is the flattened record list
(`[record.values for table in table_list for record in table.records]`),
kept in the order the store returned it. -/
inductive StoreResp where
  | err : StoreResp
  | ok : List Rec → StoreResp
deriving DecidableEq

/-- The store, abstracted: a response for every `(start_time, stop_time)`
range query. -/
def Store := Int → Int → StoreResp

/-- Absolute time delta `|r._time - T|` in seconds, the quantity the code
computes into the `delta` column of the pandas DataFrame. -/
def delta (T : Int) (r : Rec) : Nat := (r.time - T).natAbs

/-- `points_df['delta'].idxmin()` followed by `.loc`: scan the rows keeping
the first row whose delta is strictly smaller than the best so far, i.e. the
first occurrence of the minimum in result order. -/
def argminFirst (T : Int) : Rec → List Rec → Rec
  | best, [] => best
  | best, r :: rs =>
    if delta T r < delta T best then argminFirst T r rs else argminFirst T best rs

/-- Building the returned `LocationRecord` from the closest row:
`int(closest._time.timestamp())`, `float(latitude)`, `float(longitude)`,
`source`. -/
def toLocationRecord (r : Rec) : LocationRecord :=
  ⟨r.time, r.latitude, r.longitude, r.source⟩

/-- Result of the resolver loop, instrumented with the list of range queries
it issued (in order). The Python function only returns the `result` part;
`queries` records the observable calls made to the store. -/
structure LoopOut where
  result : Option LocationRecord
  queries : List (Int × Int)
deriving DecidableEq

/-- The `while True` loop of `GetClosestEntryByTimestamp`, with an explicit
fuel argument (the loop in the source is syntactically unbounded; the
development proves below that fuel `59` is never exhausted from the entry
state, so the fuelled function coincides with the unbounded loop).
Body, following the source line by line: query `[start, stop]`; on `None`
return `None`; on an empty result widen both bounds by 60 and return `None`
if the new start has reached `timestamp - 3600`, otherwise loop; on a
non-empty result return the first-minimal-delta row. -/
def closestLoop (store : Store) (T : Int) : Int → Int → Nat → LoopOut
  | _, _, 0 => ⟨none, []⟩
  | start, stop, fuel + 1 =>
    match store start stop with
    | StoreResp.err => ⟨none, [(start, stop)]⟩
    | StoreResp.ok [] =>
      if start - 60 ≤ T - 3600 then ⟨none, [(start, stop)]⟩
      else
        let rest := closestLoop store T (start - 60) (stop + 60) fuel
        ⟨rest.result, (start, stop) :: rest.queries⟩
    | StoreResp.ok (r :: rs) =>
      ⟨some (toLocationRecord (argminFirst T r rs)), [(start, stop)]⟩

/-- `GetClosestEntryByTimestamp`, instrumented: the loop entered with
`start_time = timestamp - 60`, `stop_time = timestamp + 60`. Fuel 59 is
sufficient (proved below): radii 60, 120, …, 3540 are at most 59 windows. -/
def GetClosestFull (store : Store) (T : Int) : LoopOut :=
  closestLoop store T (T - 60) (T + 60) 59

/-- The value `GetClosestEntryByTimestamp` returns to its caller
(`LocationRecord` or `None`). -/
def GetClosestEntryByTimestamp (store : Store) (T : Int) : Option LocationRecord :=
  (GetClosestFull store T).result

/-- The sequence of windows `[T - 60*j, T + 60*j], [T - 60*(j+1), T + 60*(j+1)], …`
of length `n`: the shape the resolver's query trace always takes. -/
def expectedQueries (T : Int) : Nat → Nat → List (Int × Int)
  | _, 0 => []
  | j, n + 1 => (T - 60*j, T + 60*j) :: expectedQueries T (j + 1) n

/-- `GetLocationHistory` as the list of values the generator yields: on a
store error (`table_list is None`) the generator yields a single `None`;
otherwise it yields one `LocationRecord` per returned row, in order. -/
def GetLocationHistory (store : Store) (startT stopT : Int) :
    List (Option LocationRecord) :=
  match store startT stopT with
  | StoreResp.err => [none]
  | StoreResp.ok rows => rows.map (fun r => some (toLocationRecord r))

/-- Unfolding lemma for `argminFirst` on a cons cell. -/
lemma argminFirst_cons (T : Int) (best r : Rec) (rs : List Rec) :
    argminFirst T best (r :: rs) =
      if delta T r < delta T best then argminFirst T r rs
      else argminFirst T best rs := rfl

/-- Unfolding lemma for one iteration of the resolver loop. -/
lemma closestLoop_succ (store : Store) (T start stop : Int) (fuel : Nat) :
    closestLoop store T start stop (fuel + 1) =
      match store start stop with
      | StoreResp.err => ⟨none, [(start, stop)]⟩
      | StoreResp.ok [] =>
        if start - 60 ≤ T - 3600 then ⟨none, [(start, stop)]⟩
        else
          let rest := closestLoop store T (start - 60) (stop + 60) fuel
          ⟨rest.result, (start, stop) :: rest.queries⟩
      | StoreResp.ok (r :: rs) =>
        ⟨some (toLocationRecord (argminFirst T r rs)), [(start, stop)]⟩ := rfl

/-- Characterisation of `argminFirst`: either the running best survives and is
a lower bound for the scanned list, or the result sits inside the scanned list,
beats the running best strictly, beats everything before it strictly, and is a
lower bound for everything after it. -/
lemma argminFirst_spec (T : Int) :
    ∀ (rs : List Rec) (best : Rec),
      (argminFirst T best rs = best ∧ ∀ x ∈ rs, delta T best ≤ delta T x) ∨
      (∃ l₁ l₂, rs = l₁ ++ argminFirst T best rs :: l₂ ∧
        delta T (argminFirst T best rs) < delta T best ∧
        (∀ x ∈ l₁, delta T (argminFirst T best rs) < delta T x) ∧
        (∀ x ∈ l₂, delta T (argminFirst T best rs) ≤ delta T x)) := by
  intro rs
  induction rs with
  | nil => intro best; exact Or.inl ⟨rfl, by simp⟩
  | cons r rs ih =>
    intro best
    by_cases h : delta T r < delta T best
    · have hA : argminFirst T best (r :: rs) = argminFirst T r rs := by
        rw [argminFirst_cons, if_pos h]
      rw [hA]
      obtain hspec := ih r
      set B := argminFirst T r rs with hB
      rcases hspec with ⟨he, hmin⟩ | ⟨l₁, l₂, hsplit, hlt, hpre, hpost⟩
      · refine Or.inr ⟨[], rs, ?_, ?_, ?_, ?_⟩
        · rw [he]; rfl
        · rw [he]; exact h
        · simp
        · intro x hx; rw [he]; exact hmin x hx
      · refine Or.inr ⟨r :: l₁, l₂, ?_, ?_, ?_, hpost⟩
        · rw [hsplit]; rfl
        · exact hlt.trans h
        · intro x hx
          rcases List.mem_cons.mp hx with hx | hx
          · rw [hx]; exact hlt
          · exact hpre x hx
    · have hbr : delta T best ≤ delta T r := le_of_not_lt h
      have hA : argminFirst T best (r :: rs) = argminFirst T best rs := by
        rw [argminFirst_cons, if_neg h]
      rw [hA]
      obtain hspec := ih best
      set B := argminFirst T best rs with hB
      rcases hspec with ⟨he, hmin⟩ | ⟨l₁, l₂, hsplit, hlt, hpre, hpost⟩
      · refine Or.inl ⟨he, ?_⟩
        intro x hx
        rcases List.mem_cons.mp hx with hx | hx
        · rw [hx]; exact hbr
        · exact hmin x hx
      · refine Or.inr ⟨r :: l₁, l₂, ?_, hlt, ?_, hpost⟩
        · rw [hsplit]; rfl
        · intro x hx
          rcases List.mem_cons.mp hx with hx | hx
          · rw [hx]; exact hlt.trans_le hbr
          · exact hpre x hx

/-- Claim C1: whenever the range query issued by `GetClosestEntryByTimestamp`
returns a non-empty result set, the operation returns the sample of that
result set with minimal `|sample.timestamp - T|`; when several samples attain
the minimal delta, the sample appearing first in the store-returned result
order is returned (every strictly earlier sample has a strictly larger
delta). -/
theorem C1_closest_is_first_min (store : Store) (T start stop : Int)
    (fuel : Nat) (r : Rec) (rs : List Rec)
    (hq : store start stop = StoreResp.ok (r :: rs)) :
    ∃ e : Rec,
      (closestLoop store T start stop (fuel + 1)).result = some (toLocationRecord e) ∧
      e ∈ r :: rs ∧
      (∀ x ∈ r :: rs, delta T e ≤ delta T x) ∧
      (∃ l₁ l₂, r :: rs = l₁ ++ e :: l₂ ∧ ∀ x ∈ l₁, delta T e < delta T x) := by
  have hres : (closestLoop store T start stop (fuel + 1)).result
      = some (toLocationRecord (argminFirst T r rs)) := by
    rw [closestLoop_succ, hq]
  obtain hspec := argminFirst_spec T rs r
  set A := argminFirst T r rs with hA
  refine ⟨A, hres, ?_, ?_, ?_⟩
  · rcases hspec with ⟨he, _⟩ | ⟨l₁, l₂, hsplit, _, _, _⟩
    · rw [he]; exact List.mem_cons_self r rs
    · rw [hsplit]
      exact List.mem_cons_of_mem r (List.mem_append_right l₁ (List.mem_cons_self _ _))
  · intro x hx
    rcases hspec with ⟨he, hmin⟩ | ⟨l₁, l₂, hsplit, hlt, hpre, hpost⟩
    · rcases List.mem_cons.mp hx with hx | hx
      · exact le_of_eq (by rw [hx, he])
      · rw [he]; exact hmin x hx
    · rcases List.mem_cons.mp hx with hx | hx
      · rw [hx]; exact le_of_lt hlt
      · rw [hsplit] at hx
        rcases List.mem_append.mp hx with hx | hx
        · exact le_of_lt (hpre x hx)
        · rcases List.mem_cons.mp hx with hx | hx
          · exact le_of_eq (by rw [hx])
          · exact hpost x hx
  · rcases hspec with ⟨he, _⟩ | ⟨l₁, l₂, hsplit, hlt, hpre, _⟩
    · exact ⟨[], rs, by rw [he]; rfl, by simp⟩
    · refine ⟨r :: l₁, l₂, by rw [hsplit]; rfl, ?_⟩
      intro x hx
      rcases List.mem_cons.mp hx with hx | hx
      · rw [hx]; exact hlt
      · exact hpre x hx

/-- Concrete store for exercising the resolver: the first window already
contains two rows that are exactly equidistant from `T = 0` (times `30` and
`-30`); the row at time `30` comes first in store order. -/
def tieStore : Store := fun _ _ =>
  StoreResp.ok [⟨30, 1, 2, "iss"⟩, ⟨-30, 3, 4, "iss"⟩]

/-- Witness for C1 at a concrete tie: with two equidistant rows the resolver
returns the first one in store order, which attains the minimal delta. -/
theorem C1_witness :
    tieStore (-60) 60 = StoreResp.ok [⟨30, 1, 2, "iss"⟩, ⟨-30, 3, 4, "iss"⟩] ∧
    (∃ e : Rec,
      (closestLoop tieStore 0 (-60) 60 59).result = some (toLocationRecord e) ∧
      e ∈ [⟨30, 1, 2, "iss"⟩, (⟨-30, 3, 4, "iss"⟩ : Rec)] ∧
      (∀ x ∈ [⟨30, 1, 2, "iss"⟩, (⟨-30, 3, 4, "iss"⟩ : Rec)],
        delta 0 e ≤ delta 0 x) ∧
      (∃ l₁ l₂, [⟨30, 1, 2, "iss"⟩, (⟨-30, 3, 4, "iss"⟩ : Rec)] = l₁ ++ e :: l₂ ∧
        ∀ x ∈ l₁, delta 0 e < delta 0 x)) :=
  ⟨rfl, C1_closest_is_first_min tieStore 0 (-60) 60 58 ⟨30, 1, 2, "iss"⟩
    [⟨-30, 3, 4, "iss"⟩] rfl⟩

/-- Length of the expected query trace. -/
lemma expectedQueries_length (T : Int) :
    ∀ (n j : Nat), (expectedQueries T j n).length = n := by
  intro n
  induction n with
  | zero => intro j; rfl
  | succ m ih => intro j; simp [expectedQueries, ih (j + 1)]

/-- Every window in the expected query trace is a symmetric window of radius
`60 * k` with `j ≤ k < j + n`. -/
lemma expectedQueries_mem (T : Int) :
    ∀ (n j : Nat) (q : Int × Int), q ∈ expectedQueries T j n →
      ∃ k : Nat, j ≤ k ∧ k < j + n ∧ q = (T - 60*k, T + 60*k) := by
  intro n
  induction n with
  | zero => intro j q hq; simp [expectedQueries] at hq
  | succ m ih =>
    intro j q hq
    rw [expectedQueries] at hq
    rcases List.mem_cons.mp hq with hq | hq
    · exact ⟨j, le_rfl, by omega, hq⟩
    · obtain ⟨k, hk1, hk2, hk3⟩ := ih (j + 1) q hq
      exact ⟨k, by omega, by omega, hk3⟩

/-- If every window of radius `60*k`, `j ≤ k ≤ 59`, comes back empty, the loop
entered at radius `60*j` with enough fuel queries exactly the windows
`j, j+1, …, 59` and returns `none`. -/
lemma loop_allEmpty (store : Store) (T : Int) :
    ∀ (fuel j : Nat), 1 ≤ j → j ≤ 59 → 60 - j ≤ fuel →
      (∀ k : Nat, j ≤ k → k ≤ 59 → store (T - 60*k) (T + 60*k) = StoreResp.ok []) →
      closestLoop store T (T - 60*j) (T + 60*j) fuel =
        ⟨none, expectedQueries T j (60 - j)⟩ := by
  intro fuel
  induction fuel with
  | zero => intro j h1 h59 hfuel _; omega
  | succ n ih =>
    intro j h1 h59 hfuel hemp
    have hj : store (T - 60*j) (T + 60*j) = StoreResp.ok [] := hemp j le_rfl h59
    rw [closestLoop_succ, hj]
    rcases Nat.lt_or_ge j 59 with hlt | hge
    · rw [if_neg (by omega)]
      have e1 : T - 60*(j : Int) - 60 = T - 60*((j + 1 : Nat) : Int) := by
        push_cast; ring
      have e2 : T + 60*(j : Int) + 60 = T + 60*((j + 1 : Nat) : Int) := by
        push_cast; ring
      rw [e1, e2, ih (j + 1) (by omega) (by omega) (by omega)
        (fun k hk1 hk2 => hemp k (by omega) hk2)]
      rw [show (60 - j : Nat) = (60 - (j + 1)) + 1 from by omega, expectedQueries]
    · have hj59 : j = 59 := le_antisymm h59 hge
      subst hj59
      rw [if_pos (by omega)]
      rfl

/-- If no queried window errors and the loop entered at radius `60*j` returns
`none`, then every window of radius `60*k`, `j ≤ k ≤ 59`, came back empty. -/
lemma loop_none_allEmpty (store : Store) (T : Int) :
    ∀ (fuel j : Nat), 1 ≤ j → j ≤ 59 → 60 - j ≤ fuel →
      (∀ k : Nat, j ≤ k → k ≤ 59 → ∃ rows, store (T - 60*k) (T + 60*k) = StoreResp.ok rows) →
      (closestLoop store T (T - 60*j) (T + 60*j) fuel).result = none →
      ∀ k : Nat, j ≤ k → k ≤ 59 → store (T - 60*k) (T + 60*k) = StoreResp.ok [] := by
  intro fuel
  induction fuel with
  | zero => intro j h1 h59 hfuel _ _; omega
  | succ n ih =>
    intro j h1 h59 hfuel hok hnone k hk1 hk2
    obtain ⟨rows, hj⟩ := hok j le_rfl h59
    rw [closestLoop_succ, hj] at hnone
    cases rows with
    | cons r rs => simp at hnone
    | nil =>
      rcases Nat.lt_or_ge j 59 with hlt | hge
      · rw [if_neg (by omega)] at hnone
        have e1 : T - 60*(j : Int) - 60 = T - 60*((j + 1 : Nat) : Int) := by
          push_cast; ring
        have e2 : T + 60*(j : Int) + 60 = T + 60*((j + 1 : Nat) : Int) := by
          push_cast; ring
        rw [e1, e2] at hnone
        rcases Nat.eq_or_lt_of_le hk1 with hkj | hkj
        · rw [hkj] at hj; exact hj
        · exact ih (j + 1) (by omega) (by omega) (by omega)
            (fun k hk1 hk2 => hok k (by omega) hk2) hnone k (by omega) hk2
      · have hj59 : j = 59 := le_antisymm h59 hge
        have hk59 : k = 59 := by omega
        rw [hk59, ← hj59]
        exact hj

/-- Whatever the store does, the query trace of the loop entered at radius
`60*j` with enough fuel is an initial run of consecutive windows starting at
`j`, of length at least 1 and at most `60 - j`. -/
lemma loop_queries_shape (store : Store) (T : Int) :
    ∀ (fuel j : Nat), 1 ≤ j → j ≤ 59 → 60 - j ≤ fuel →
      ∃ n : Nat, 1 ≤ n ∧ n ≤ 60 - j ∧
        (closestLoop store T (T - 60*j) (T + 60*j) fuel).queries =
          expectedQueries T j n := by
  intro fuel
  induction fuel with
  | zero => intro j h1 h59 hfuel; omega
  | succ n ih =>
    intro j h1 h59 hfuel
    cases hresp : store (T - 60*j) (T + 60*j) with
    | err =>
      refine ⟨1, le_rfl, by omega, ?_⟩
      rw [closestLoop_succ, hresp]
      rfl
    | ok rows =>
      cases rows with
      | cons r rs =>
        refine ⟨1, le_rfl, by omega, ?_⟩
        rw [closestLoop_succ, hresp]
        rfl
      | nil =>
        rcases Nat.lt_or_ge j 59 with hlt | hge
        · obtain ⟨m, hm1, hm2, hm3⟩ := ih (j + 1) (by omega) (by omega) (by omega)
          refine ⟨m + 1, by omega, by omega, ?_⟩
          rw [closestLoop_succ, hresp, if_neg (by omega)]
          have e1 : T - 60*(j : Int) - 60 = T - 60*((j + 1 : Nat) : Int) := by
            push_cast; ring
          have e2 : T + 60*(j : Int) + 60 = T + 60*((j + 1 : Nat) : Int) := by
            push_cast; ring
          rw [expectedQueries]
          show (T - 60*(j : Int), T + 60*(j : Int)) ::
              (closestLoop store T (T - 60*(j : Int) - 60) (T + 60*(j : Int) + 60) n).queries =
            (T - 60*(j : Int), T + 60*(j : Int)) :: expectedQueries T (j + 1) m
          rw [e1, e2, hm3]
        · have hj59 : j = 59 := le_antisymm h59 hge
          subst hj59
          refine ⟨1, le_rfl, by omega, ?_⟩
          rw [closestLoop_succ, hresp, if_pos (by omega)]
          rfl

/-- With fuel at least `60 - j`, the loop's value does not depend on the fuel:
the widening check always fires before the fuel runs out. -/
lemma loop_fuel_stable (store : Store) (T : Int) :
    ∀ (f1 f2 j : Nat), 1 ≤ j → j ≤ 59 → 60 - j ≤ f1 → 60 - j ≤ f2 →
      closestLoop store T (T - 60*j) (T + 60*j) f1 =
        closestLoop store T (T - 60*j) (T + 60*j) f2 := by
  intro f1
  induction f1 with
  | zero => intro f2 j h1 h59 hf1 hf2; omega
  | succ n ih =>
    intro f2 j h1 h59 hf1 hf2
    cases f2 with
    | zero => omega
    | succ m =>
      cases hresp : store (T - 60*j) (T + 60*j) with
      | err => rw [closestLoop_succ, hresp, closestLoop_succ, hresp]
      | ok rows =>
        cases rows with
        | cons r rs => rw [closestLoop_succ, hresp, closestLoop_succ, hresp]
        | nil =>
          rcases Nat.lt_or_ge j 59 with hlt | hge
          · rw [closestLoop_succ, hresp, closestLoop_succ, hresp,
              if_neg (by omega), if_neg (by omega)]
            have e1 : T - 60*(j : Int) - 60 = T - 60*((j + 1 : Nat) : Int) := by
              push_cast; ring
            have e2 : T + 60*(j : Int) + 60 = T + 60*((j + 1 : Nat) : Int) := by
              push_cast; ring
            rw [e1, e2, ih m (j + 1) (by omega) (by omega) (by omega) (by omega)]
          · have hj59 : j = 59 := le_antisymm h59 hge
            subst hj59
            rw [closestLoop_succ, hresp, closestLoop_succ, hresp,
              if_pos (by omega), if_pos (by omega)]

/-- The entry state of `GetClosestFull`, written with the radius as a cast of
`(1 : Nat)` so the general loop lemmas apply. -/
lemma getClosestFull_eq (store : Store) (T : Int) :
    GetClosestFull store T =
      closestLoop store T (T - 60*((1 : Nat) : Int)) (T + 60*((1 : Nat) : Int)) 59 := by
  norm_num [GetClosestFull]

/-- A store on which every query errors (models `read_data` always catching
an exception and returning `None`). -/
def errStore : Store := fun _ _ => StoreResp.err

/-- A store that is reachable but holds no data: every range query succeeds
with an empty result set. -/
def emptyStore : Store := fun _ _ => StoreResp.ok []

/-- Claim C2: provided every queried window gets a successful (possibly empty)
response, `GetClosestEntryByTimestamp` starts at radius 60, grows the radius
by exactly 60 after each empty result, and returns the not-found value `none`
exactly when all 59 windows of radius 60·k, k = 1…59, were queried and came
back empty — at which point the widened lower bound has reached `T - 3600` and
no further query is issued (the trace is exactly the 59 windows). -/
theorem C2_widening_policy (store : Store) (T : Int)
    (hok : ∀ k : Nat, 1 ≤ k → k ≤ 59 →
      ∃ rows, store (T - 60*k) (T + 60*k) = StoreResp.ok rows) :
    (GetClosestEntryByTimestamp store T = none ↔
      ∀ k : Nat, 1 ≤ k → k ≤ 59 → store (T - 60*k) (T + 60*k) = StoreResp.ok []) ∧
    ((∀ k : Nat, 1 ≤ k → k ≤ 59 → store (T - 60*k) (T + 60*k) = StoreResp.ok []) →
      (GetClosestFull store T).queries = expectedQueries T 1 59) := by
  refine ⟨⟨?_, ?_⟩, ?_⟩
  · intro hnone
    have h : (closestLoop store T (T - 60*((1 : Nat) : Int))
        (T + 60*((1 : Nat) : Int)) 59).result = none := by
      rw [← getClosestFull_eq]; exact hnone
    exact loop_none_allEmpty store T 59 1 le_rfl (by omega) (by omega) hok h
  · intro hemp
    have h := loop_allEmpty store T 59 1 le_rfl (by omega) (by omega) hemp
    show (GetClosestFull store T).result = none
    rw [getClosestFull_eq, h]
  · intro hemp
    have h := loop_allEmpty store T 59 1 le_rfl (by omega) (by omega) hemp
    rw [getClosestFull_eq, h]

/-- Witness for C2: against a reachable store with no data at all, the
resolver returns `none` and its query trace is exactly the 59 windows of
radius 60, 120, …, 3540 around `T = 0`. -/
theorem C2_witness :
    GetClosestEntryByTimestamp emptyStore 0 = none ∧
    (GetClosestFull emptyStore 0).queries = expectedQueries 0 1 59 := by
  have hok : ∀ k : Nat, 1 ≤ k → k ≤ 59 →
      ∃ rows, emptyStore (0 - 60*k) (0 + 60*k) = StoreResp.ok rows :=
    fun _ _ _ => ⟨[], rfl⟩
  have hemp : ∀ k : Nat, 1 ≤ k → k ≤ 59 →
      emptyStore (0 - 60*k) (0 + 60*k) = StoreResp.ok [] :=
    fun _ _ _ => rfl
  exact ⟨(C2_widening_policy emptyStore 0 hok).1.mpr hemp,
    (C2_widening_policy emptyStore 0 hok).2 hemp⟩

/-- Counterexample to claim C3 as stated: the outcome of
`GetClosestEntryByTimestamp` when the store query fails is `None` — the very
same value returned when no sample exists within the radius ceiling — so the
error outcome is not distinct from the NotFound outcome. -/
theorem C3_counterexample :
    GetClosestEntryByTimestamp errStore 0 = none ∧
    GetClosestEntryByTimestamp emptyStore 0 = none ∧
    GetClosestEntryByTimestamp errStore 0 = GetClosestEntryByTimestamp emptyStore 0 := by
  refine ⟨rfl, ?_, ?_⟩ <;> decide

/-- Claim C3 (amended): if the store's range query fails at any widening step,
`GetClosestEntryByTimestamp` stops immediately (no further query) and returns
`None` — the same outcome used for "not found", so the caller cannot
distinguish "the store is unavailable" from "no sample exists within the
radius ceiling". -/
theorem C3_error_returns_none (store : Store) (T start stop : Int) (fuel : Nat)
    (h : store start stop = StoreResp.err) :
    closestLoop store T start stop (fuel + 1) = ⟨none, [(start, stop)]⟩ := by
  rw [closestLoop_succ, h]

/-- Witness for the amended C3 at a concrete erroring store. -/
theorem C3_witness :
    errStore (-60) 60 = StoreResp.err ∧
    closestLoop errStore 0 (-60) 60 59 = ⟨none, [(-60, 60)]⟩ :=
  ⟨rfl, C3_error_returns_none errStore 0 (-60) 60 58 rfl⟩

/-- Claim C10: assuming every store call returns (a result set or an error),
the expanding-window loop terminates after at most 59 range queries; the
query trace is an initial run of the windows of radius 60·k for k = 1…59, the
window of radius 3600 is never queried, and — although the source loop is a
syntactically unbounded `while True` — any fuel of at least 59 yields the
same value, so the fuelled embedding coincides with the unbounded loop. -/
theorem C10_termination_bound (store : Store) (T : Int) :
    (∃ n : Nat, 1 ≤ n ∧ n ≤ 59 ∧
      (GetClosestFull store T).queries = expectedQueries T 1 n) ∧
    ((GetClosestFull store T).queries.length ≤ 59) ∧
    (∀ q ∈ (GetClosestFull store T).queries,
      ∃ k : Nat, 1 ≤ k ∧ k ≤ 59 ∧ q = (T - 60*k, T + 60*k)) ∧
    ((T - 3600, T + 3600) ∉ (GetClosestFull store T).queries) ∧
    (∀ fuel : Nat, 59 ≤ fuel →
      closestLoop store T (T - 60) (T + 60) fuel = GetClosestFull store T) := by
  obtain ⟨n, hn1, hn2, hq⟩ :=
    loop_queries_shape store T 59 1 le_rfl (by omega) (by omega)
  have hq' : (GetClosestFull store T).queries = expectedQueries T 1 n := by
    rw [getClosestFull_eq]; exact hq
  refine ⟨⟨n, hn1, by omega, hq'⟩, ?_, ?_, ?_, ?_⟩
  · rw [hq', expectedQueries_length]; omega
  · intro q hqmem
    rw [hq'] at hqmem
    obtain ⟨k, hk1, hk2, hk3⟩ := expectedQueries_mem T n 1 q hqmem
    exact ⟨k, hk1, by omega, hk3⟩
  · intro hmem
    rw [hq'] at hmem
    obtain ⟨k, hk1, hk2, hk3⟩ := expectedQueries_mem T n 1 _ hmem
    have hfst := congrArg Prod.fst hk3
    simp only [Prod.fst] at hfst
    omega
  · intro fuel hfuel
    have h1 := loop_fuel_stable store T fuel 59 1 le_rfl (by omega) (by omega) (by omega)
    rw [getClosestFull_eq]
    have e1 : T - (60 : Int) = T - 60*((1 : Nat) : Int) := by norm_num
    have e2 : T + (60 : Int) = T + 60*((1 : Nat) : Int) := by norm_num
    rw [e1, e2]
    exact h1

/-- Witness for C10 at a concrete store: the single queried window is the
radius-60 one, and running the loop with any larger fuel (here 100) gives the
same value as the fuel-59 embedding. -/
theorem C10_witness :
    ((-60 : Int), (60 : Int)) ∈ (GetClosestFull errStore 0).queries ∧
    (∃ k : Nat, 1 ≤ k ∧ k ≤ 59 ∧
      ((-60 : Int), (60 : Int)) = ((0 : Int) - 60*k, (0 : Int) + 60*k)) ∧
    (59 : Nat) ≤ 100 ∧
    closestLoop errStore 0 (0 - 60) (0 + 60) 100 = GetClosestFull errStore 0 :=
  ⟨by decide,
   (C10_termination_bound errStore 0).2.2.1 (-60, 60) (by decide),
   by omega,
   (C10_termination_bound errStore 0).2.2.2.2 100 (by omega)⟩

/-- Claim C6: on a store query error `GetLocationHistory` yields no sample
record — its output is the single item `none`, which is distinguishable from
the empty output of a successful query — and a successful query over a range
with no data yields the empty output, not an error. -/
theorem C6_history_error_vs_empty (store : Store) (s t : Int) :
    (store s t = StoreResp.err →
      GetLocationHistory store s t = [none] ∧
      (∀ x ∈ GetLocationHistory store s t, x = none) ∧
      GetLocationHistory store s t ≠ []) ∧
    (store s t = StoreResp.ok [] → GetLocationHistory store s t = []) := by
  constructor
  · intro h
    have he : GetLocationHistory store s t = [none] := by
      unfold GetLocationHistory; rw [h]
    refine ⟨he, ?_, by rw [he]; simp⟩
    intro x hx
    rw [he] at hx
    simpa using hx
  · intro h
    unfold GetLocationHistory
    rw [h]
    rfl

/-- Witness for C6: concrete erroring and concrete empty stores give the two
distinguishable outputs. -/
theorem C6_witness :
    GetLocationHistory errStore 0 10 = [none] ∧
    GetLocationHistory emptyStore 0 10 = [] :=
  ⟨((C6_history_error_vs_empty errStore 0 10).1 rfl).1,
   (C6_history_error_vs_empty emptyStore 0 10).2 rfl⟩

/-
  ===== Ingestion pipeline (`api-crawler.py`) =====
-/

/-- `ISSCrawler.check_api_response_code`: the transport status must be
exactly 200. -/
def check_api_response_code (code : Int) : Bool := code == 200

/-- A decoded, schema-valid payload (`RawPayload` of the spec): the shape
`{"message": string, "timestamp": integer-unix-seconds,
"iss_position": {"latitude": string, "longitude": string}}`. -/
structure RawPayloadDoc where
  message : String
  timestamp : Int
  latitude : String
  longitude : String

/-- `ISSCrawler.check_json_message_success`: the payload-level marker must be
the string `"success"`. -/
def check_json_message_success (p : RawPayloadDoc) : Bool := p.message == "success"

/-- Accumulating value of a digit run: `none` as soon as a non-digit char
appears (an empty run yields its accumulator). -/
def digitsVal : List Char → Nat → Option Nat
  | [], acc => some acc
  | c :: cs, acc =>
    if c.isDigit then digitsVal cs (acc * 10 + (c.toNat - 48)) else none

/-- Model of Python `float(value)` on the decimal forms the coordinate feed
produces: optional sign, then digits with an optional fractional part
(`"12.5"`, `"-7.25"`, `"1."`, `".5"`); any other character, a second dot, an
empty digit string etc. fail, mirroring the `ValueError` branch of
`convert_string_to_float`. The exact value is represented in `ℚ`. -/
def parseFloat (s : String) : Option ℚ :=
  let cs := s.toList
  let signed : ℚ × List Char :=
    match cs with
    | '-' :: rest => (-1, rest)
    | '+' :: rest => (1, rest)
    | _ => (1, cs)
  let sign := signed.1
  let body := signed.2
  let intPart := body.takeWhile (fun c => c ≠ '.')
  match body.dropWhile (fun c => c ≠ '.') with
  | [] =>
    match digitsVal intPart 0 with
    | none => none
    | some n => if intPart.isEmpty then none else some (sign * n)
  | _ :: frac =>
    if intPart.isEmpty && frac.isEmpty then none
    else
      match digitsVal intPart 0, digitsVal frac 0 with
      | some n, some f =>
        some (sign * ((n : ℚ) + (f : ℚ) / (10 : ℚ) ^ frac.length))
      | _, _ => none

/-- `ISSCrawler.convert_string_to_float`: `float(value)` with the
`ValueError` branch returning `None`. -/
def convert_string_to_float (s : String) : Option ℚ := parseFloat s

/-- `ISSCrawler.convert_timestamp_for_influxdb`:
`datetime.fromtimestamp(timestamp, timezone.utc)`. Instants are modelled as
unix seconds in UTC, so the UTC instant corresponding to unix-second `t` is
`t` itself. -/
def convert_timestamp_for_influxdb (t : Int) : Int := t

/-- The payload after `convert_json_content`: timestamp converted to a UTC
instant, coordinates converted to `float | None`. -/
structure ConvertedDoc where
  message : String
  timestamp : Int
  latitude : Option ℚ
  longitude : Option ℚ
deriving DecidableEq

/-- `ISSCrawler.convert_json_content`: convert the timestamp and both
coordinate strings in place. -/
def convert_json_content (p : RawPayloadDoc) : ConvertedDoc :=
  ⟨p.message, convert_timestamp_for_influxdb p.timestamp,
   convert_string_to_float p.latitude, convert_string_to_float p.longitude⟩

/-- Environment of one fetch attempt, abstracting the external collaborators:
whether `requests.get` returned without raising, the HTTP status code, the
result of JSON-decoding the body (`None` when `json.loads` raises), and the
verdict of the external `jsonschema` validation. -/
structure AttemptInput where
  fetchOk : Bool
  statusCode : Int
  decoded : Option RawPayloadDoc
  schemaValid : Bool

/-- `ISSCrawler.fetch_iss_data`, following the source: a raised request
exception, a non-200 status, a decode failure, a schema failure, a
non-"success" message, or an unparsable coordinate each yield `None`;
otherwise the converted payload is returned. -/
def fetch_iss_data (inp : AttemptInput) : Option ConvertedDoc :=
  if !inp.fetchOk then none
  else if !(check_api_response_code inp.statusCode) then none
  else
    match inp.decoded with
    | none => none
    | some p =>
      if inp.schemaValid && check_json_message_success p then
        let c := convert_json_content p
        match c.latitude, c.longitude with
        | some _, some _ => some c
        | _, _ => none
      else none

/-- What `InfluxDBWriter.write_data` does, seen from outside: it never lets
the exception escape (`raised` is `false` in both branches — the `except`
clause catches everything), and it logs an error exactly when the store
insert fails. -/
structure WriteOut where
  raised : Bool
  errorLogged : Bool

/-- `InfluxDBWriter.write_data` given whether the store insert succeeds. -/
def write_data (storeOk : Bool) : WriteOut :=
  if storeOk then ⟨false, false⟩ else ⟨false, true⟩

/-- Observable trace of one tick of `Main.fetch_and_store_iss_data`: how many
times `fetch_iss_data` was called, which samples were handed to `write_data`
(in order), whether a write error was logged, and whether any exception
escaped to the scheduler. -/
structure TickTrace where
  fetchCalls : Nat
  writes : List ConvertedDoc
  writeErrorLogged : Bool
  raised : Bool

/-- The `while try_counter > 0` loop of `fetch_and_store_iss_data`: on a
successful fetch the counter is zeroed and the sample is written once; on a
failed fetch the counter is decremented. `i` is the index of the next
attempt, the fuel is the current `try_counter`. -/
def tickLoop (env : Nat → AttemptInput) (storeOk : Bool) : Nat → Nat → TickTrace
  | _, 0 => ⟨0, [], false, false⟩
  | i, n + 1 =>
    match fetch_iss_data (env i) with
    | some d =>
      ⟨1, [d], (write_data storeOk).errorLogged, (write_data storeOk).raised⟩
    | none =>
      let rest := tickLoop env storeOk (i + 1) n
      ⟨rest.fetchCalls + 1, rest.writes, rest.writeErrorLogged, rest.raised⟩

/-- `Main.fetch_and_store_iss_data`: the loop entered with `try_counter = 2`
at attempt index 0. -/
def fetch_and_store_iss_data (env : Nat → AttemptInput) (storeOk : Bool) :
    TickTrace :=
  tickLoop env storeOk 0 2

/-- The tick, fully unrolled over the two possible attempts. -/
lemma tick_run (env : Nat → AttemptInput) (storeOk : Bool) :
    fetch_and_store_iss_data env storeOk =
      match fetch_iss_data (env 0) with
      | some d =>
        ⟨1, [d], (write_data storeOk).errorLogged, (write_data storeOk).raised⟩
      | none =>
        match fetch_iss_data (env 1) with
        | some d =>
          ⟨2, [d], (write_data storeOk).errorLogged, (write_data storeOk).raised⟩
        | none => ⟨2, [], false, false⟩ := by
  have e0 : fetch_and_store_iss_data env storeOk =
      match fetch_iss_data (env 0) with
      | some d =>
        ⟨1, [d], (write_data storeOk).errorLogged, (write_data storeOk).raised⟩
      | none =>
        let rest := tickLoop env storeOk 1 1
        ⟨rest.fetchCalls + 1, rest.writes, rest.writeErrorLogged, rest.raised⟩ := rfl
  rw [e0]
  cases h0 : fetch_iss_data (env 0) with
  | some d0 => rfl
  | none =>
    have e1 : tickLoop env storeOk 1 1 =
        match fetch_iss_data (env 1) with
        | some d =>
          ⟨1, [d], (write_data storeOk).errorLogged, (write_data storeOk).raised⟩
        | none =>
          let rest := tickLoop env storeOk 2 0
          ⟨rest.fetchCalls + 1, rest.writes, rest.writeErrorLogged, rest.raised⟩ := rfl
    show (let rest := tickLoop env storeOk 1 1;
      (⟨rest.fetchCalls + 1, rest.writes, rest.writeErrorLogged, rest.raised⟩ : TickTrace)) = _
    rw [e1]
    cases h1 : fetch_iss_data (env 1) with
    | some d1 => rfl
    | none => rfl

/-- Inversion of a successful fetch: the attempt had a decoded payload, every
check passed, both coordinates parsed, and the returned document is the
converted payload. -/
lemma fetch_iss_data_some (inp : AttemptInput) (d : ConvertedDoc)
    (h : fetch_iss_data inp = some d) :
    ∃ p : RawPayloadDoc, inp.decoded = some p ∧
      d = convert_json_content p ∧
      (∃ q, convert_string_to_float p.latitude = some q) ∧
      (∃ q, convert_string_to_float p.longitude = some q) ∧
      p.message = "success" ∧
      inp.fetchOk = true ∧
      check_api_response_code inp.statusCode = true ∧
      inp.schemaValid = true := by
  obtain ⟨fo, sc, dec, sv⟩ := inp
  cases fo with
  | false => simp [fetch_iss_data] at h
  | true =>
    by_cases hc : check_api_response_code sc = true
    · cases dec with
      | none => simp [fetch_iss_data, hc] at h
      | some p =>
        by_cases hv : (sv && check_json_message_success p) = true
        · simp only [fetch_iss_data, hc, hv] at h
          simp at h
          have hl : (convert_json_content p).latitude
              = convert_string_to_float p.latitude := rfl
          have hg : (convert_json_content p).longitude
              = convert_string_to_float p.longitude := rfl
          rw [hl, hg] at h
          obtain ⟨hsv, hmsgb⟩ : sv = true ∧ check_json_message_success p = true := by
            simpa using hv
          have hmsg : p.message = "success" := by
            have := hmsgb
            unfold check_json_message_success at this
            exact beq_iff_eq.mp this
          cases hlat : convert_string_to_float p.latitude with
          | none => rw [hlat] at h; simp at h
          | some ql =>
            cases hlng : convert_string_to_float p.longitude with
            | none => rw [hlat, hlng] at h; simp at h
            | some rl =>
              rw [hlat, hlng] at h
              simp at h
              exact ⟨p, rfl, h.symm, ⟨ql, hlat⟩, ⟨rl, hlng⟩, hmsg, rfl, hc, hsv⟩
        · simp [fetch_iss_data, hc, hv] at h
    · simp [fetch_iss_data, hc] at h

/-- Every document handed to `write_data` during a tick came from a
successful `fetch_iss_data` call. -/
lemma writes_from_fetch (env : Nat → AttemptInput) (storeOk : Bool)
    (d : ConvertedDoc)
    (hmem : d ∈ (fetch_and_store_iss_data env storeOk).writes) :
    ∃ i : Nat, fetch_iss_data (env i) = some d := by
  rcases h0 : fetch_iss_data (env 0) with _ | d0
  · rcases h1 : fetch_iss_data (env 1) with _ | d1
    · rw [tick_run env storeOk, h0, h1] at hmem
      simp at hmem
    · rw [tick_run env storeOk, h0, h1] at hmem
      simp at hmem
      exact ⟨1, by rw [h1, hmem]⟩
  · rw [tick_run env storeOk, h0] at hmem
    simp at hmem
    exact ⟨0, by rw [h0, hmem]⟩

/-- Claim C5: in every tick the fetch-validate-convert sequence runs at most
twice, at most one store insert is performed — exactly one, on the first
successful attempt, after which no further fetch happens — and when both
attempts fail the tick is abandoned with no insert. -/
theorem C5_retry_budget (env : Nat → AttemptInput) (storeOk : Bool) :
    ((fetch_and_store_iss_data env storeOk).fetchCalls ≤ 2) ∧
    ((fetch_and_store_iss_data env storeOk).writes.length ≤ 1) ∧
    (∀ d, fetch_iss_data (env 0) = some d →
      (fetch_and_store_iss_data env storeOk).writes = [d] ∧
      (fetch_and_store_iss_data env storeOk).fetchCalls = 1) ∧
    (∀ d, fetch_iss_data (env 0) = none → fetch_iss_data (env 1) = some d →
      (fetch_and_store_iss_data env storeOk).writes = [d] ∧
      (fetch_and_store_iss_data env storeOk).fetchCalls = 2) ∧
    (fetch_iss_data (env 0) = none → fetch_iss_data (env 1) = none →
      (fetch_and_store_iss_data env storeOk).writes = [] ∧
      (fetch_and_store_iss_data env storeOk).fetchCalls = 2) := by
  rw [tick_run env storeOk]
  cases h0 : fetch_iss_data (env 0) with
  | some d0 => simp
  | none =>
    cases h1 : fetch_iss_data (env 1) with
    | some d1 => simp
    | none => simp

/-- Claim C4 (amended): with a failing store insert, nothing is raised to the
scheduler, the insert is attempted at most once within the tick, and whenever
a sample was produced the failure is recorded as an error log entry — the log
is the only place the failure shows up. -/
theorem C4_write_failure_logged_not_raised (env : Nat → AttemptInput) :
    (fetch_and_store_iss_data env false).raised = false ∧
    (fetch_and_store_iss_data env false).writes.length ≤ 1 ∧
    ((fetch_and_store_iss_data env false).writes ≠ [] →
      (fetch_and_store_iss_data env false).writeErrorLogged = true) := by
  rw [tick_run env false]
  cases h0 : fetch_iss_data (env 0) with
  | some d0 => exact ⟨rfl, by simp, fun _ => rfl⟩
  | none =>
    cases h1 : fetch_iss_data (env 1) with
    | some d1 => exact ⟨rfl, by simp, fun _ => rfl⟩
    | none => exact ⟨rfl, by simp, fun hne => absurd rfl hne⟩

/- Concrete payloads and attempt environments used by the witnesses. -/

/-- A fully valid payload as the feed produces it. -/
def pOk : RawPayloadDoc := ⟨"success", 1700000000, "12.5", "-7.25"⟩

/-- A fully valid attempt: request succeeded, status 200, payload decoded and
schema-valid. -/
def inpOk : AttemptInput := ⟨true, 200, some pOk, true⟩

/-- The converted document produced from `pOk`. -/
def dOk : ConvertedDoc := ⟨"success", 1700000000, some (25/2 : ℚ), some (-29/4 : ℚ)⟩

/-- An attempt that fails the transport-status check (HTTP 500). -/
def inpFail : AttemptInput := ⟨true, 500, some pOk, true⟩

/-- Environment in which every attempt succeeds. -/
def envOk : Nat → AttemptInput := fun _ => inpOk

/-- Environment in which the first attempt fails and the second succeeds. -/
def envRetry : Nat → AttemptInput := fun i => if i = 0 then inpFail else inpOk

/-- Payload whose latitude string does not parse as a number. -/
def pBadLat : RawPayloadDoc := ⟨"success", 1700000000, "abc", "4.0"⟩

/-- Attempt carrying `pBadLat`, all transport-level checks passing. -/
def inpBadLat : AttemptInput := ⟨true, 200, some pBadLat, true⟩

/-- Payload whose success marker is not `"success"` but whose coordinates are
perfectly valid numbers. -/
def pBadMsg : RawPayloadDoc := ⟨"failure", 1700000000, "12.5", "-7.25"⟩

/-- Attempt carrying `pBadMsg`, all transport-level checks passing. -/
def inpBadMsg : AttemptInput := ⟨true, 200, some pBadMsg, true⟩

/-- Evaluation of the parser on `"12.5"`. -/
lemma parseFloat_ok_lat : parseFloat "12.5" = some (25/2 : ℚ) := by
  have h : parseFloat "12.5"
      = some ((1 : ℚ) * ((12 : ℚ) + (5 : ℚ) / (10 : ℚ) ^ (1 : Nat))) := rfl
  rw [h]; norm_num

/-- Evaluation of the parser on `"-7.25"`. -/
lemma parseFloat_ok_lng : parseFloat "-7.25" = some (-29/4 : ℚ) := by
  have h : parseFloat "-7.25"
      = some ((-1 : ℚ) * ((7 : ℚ) + (25 : ℚ) / (10 : ℚ) ^ (2 : Nat))) := rfl
  rw [h]; norm_num

/-- The fully valid attempt produces exactly `dOk`. -/
lemma fetch_inpOk : fetch_iss_data inpOk = some dOk := by
  simp [fetch_iss_data, inpOk, pOk, dOk, check_api_response_code,
    check_json_message_success, convert_json_content, convert_string_to_float,
    convert_timestamp_for_influxdb, parseFloat_ok_lat, parseFloat_ok_lng]

/-- Counterexample to claim C4 as stated: in a tick whose fetch produced the
valid sample `dOk` and whose store insert fails, the caller-observable
outcome is identical to that of a tick whose insert succeeds — no exception
escapes `write_data` (`raised = false` in both runs) and, in the Python
source, the function returns `None` in both runs. The failure is only
recorded in the error log (`writeErrorLogged = true`), not surfaced to the
pipeline's caller. -/
theorem C4_counterexample :
    (fetch_and_store_iss_data envOk false).writes = [dOk] ∧
    (fetch_and_store_iss_data envOk false).raised = false ∧
    (fetch_and_store_iss_data envOk false).raised =
      (fetch_and_store_iss_data envOk true).raised ∧
    (fetch_and_store_iss_data envOk false).writeErrorLogged = true := by
  have h0 : fetch_iss_data (envOk 0) = some dOk := fetch_inpOk
  rw [tick_run envOk false, tick_run envOk true, h0]
  exact ⟨rfl, rfl, rfl, rfl⟩

/-- Witness for the amended C4: the concrete failing-insert tick. -/
theorem C4_witness :
    (fetch_and_store_iss_data envOk false).writes ≠ [] ∧
    (fetch_and_store_iss_data envOk false).writeErrorLogged = true ∧
    (fetch_and_store_iss_data envOk false).raised = false := by
  have hne : (fetch_and_store_iss_data envOk false).writes ≠ [] := by
    rw [tick_run envOk false, show fetch_iss_data (envOk 0) = some dOk from fetch_inpOk]
    simp
  exact ⟨hne, (C4_write_failure_logged_not_raised envOk).2.2 hne,
    (C4_write_failure_logged_not_raised envOk).1⟩

/-- Witness for C5: first attempt fails (HTTP 500), second succeeds — two
fetch calls, one write of the produced sample. -/
theorem C5_witness :
    fetch_iss_data (envRetry 0) = none ∧
    fetch_iss_data (envRetry 1) = some dOk ∧
    (fetch_and_store_iss_data envRetry true).writes = [dOk] ∧
    (fetch_and_store_iss_data envRetry true).fetchCalls = 2 := by
  have h0 : fetch_iss_data (envRetry 0) = none := rfl
  have h1 : fetch_iss_data (envRetry 1) = some dOk := by
    show fetch_iss_data inpOk = some dOk
    exact fetch_inpOk
  have h := (C5_retry_budget envRetry true).2.2.2.1 dOk h0 h1
  exact ⟨h0, h1, h.1, h.2⟩

/-- Claim C7: a payload whose latitude or longitude string fails to parse
never reaches the store in that attempt — the fetch yields `None` — and more
generally every document a tick hands to the store write has both
coordinates present (no partial sample is ever written). -/
theorem C7_unparsable_coordinate_no_write :
    (∀ (inp : AttemptInput) (p : RawPayloadDoc), inp.decoded = some p →
      (convert_string_to_float p.latitude = none ∨
        convert_string_to_float p.longitude = none) →
      fetch_iss_data inp = none) ∧
    (∀ (env : Nat → AttemptInput) (storeOk : Bool) (d : ConvertedDoc),
      d ∈ (fetch_and_store_iss_data env storeOk).writes →
      (∃ q, d.latitude = some q) ∧ (∃ q, d.longitude = some q)) := by
  constructor
  · intro inp p hdec hbad
    cases hres : fetch_iss_data inp with
    | none => rfl
    | some d =>
      exfalso
      obtain ⟨p', hdec', _, ⟨q1, hq1⟩, ⟨q2, hq2⟩, _, _, _, _⟩ :=
        fetch_iss_data_some inp d hres
      rw [hdec] at hdec'
      obtain rfl := Option.some.inj hdec'
      rcases hbad with hb | hb
      · rw [hb] at hq1; exact Option.noConfusion hq1
      · rw [hb] at hq2; exact Option.noConfusion hq2
  · intro env storeOk d hmem
    obtain ⟨i, hi⟩ := writes_from_fetch env storeOk d hmem
    obtain ⟨p, _, hd, ⟨q1, hq1⟩, ⟨q2, hq2⟩, _, _, _, _⟩ :=
      fetch_iss_data_some (env i) d hi
    constructor
    · exact ⟨q1, by rw [hd]; simpa [convert_json_content] using hq1⟩
    · exact ⟨q2, by rw [hd]; simpa [convert_json_content] using hq2⟩

/-- Witness for C7: the payload with latitude `"abc"` is dropped before the
store. -/
theorem C7_witness :
    inpBadLat.decoded = some pBadLat ∧
    convert_string_to_float pBadLat.latitude = none ∧
    fetch_iss_data inpBadLat = none :=
  ⟨rfl, rfl,
    C7_unparsable_coordinate_no_write.1 inpBadLat pBadLat rfl (Or.inl rfl)⟩

/-- Claim C8: a payload whose success marker is not `"success"` never results
in a store write in that attempt, regardless of coordinate validity — and
every document a tick hands to the store write carries the marker
`"success"`. -/
theorem C8_message_not_success_no_write :
    (∀ (inp : AttemptInput) (p : RawPayloadDoc), inp.decoded = some p →
      p.message ≠ "success" → fetch_iss_data inp = none) ∧
    (∀ (env : Nat → AttemptInput) (storeOk : Bool) (d : ConvertedDoc),
      d ∈ (fetch_and_store_iss_data env storeOk).writes →
      d.message = "success") := by
  constructor
  · intro inp p hdec hmsg
    cases hres : fetch_iss_data inp with
    | none => rfl
    | some d =>
      exfalso
      obtain ⟨p', hdec', _, _, _, hm, _, _, _⟩ := fetch_iss_data_some inp d hres
      rw [hdec] at hdec'
      obtain rfl := Option.some.inj hdec'
      exact hmsg hm
  · intro env storeOk d hmem
    obtain ⟨i, hi⟩ := writes_from_fetch env storeOk d hmem
    obtain ⟨p, _, hd, _, _, hm, _, _, _⟩ := fetch_iss_data_some (env i) d hi
    rw [hd]
    simpa [convert_json_content] using hm

/-- Witness for C8: marker `"failure"` with perfectly numeric coordinates is
dropped before the store. -/
theorem C8_witness :
    inpBadMsg.decoded = some pBadMsg ∧
    convert_string_to_float pBadMsg.latitude = some (25/2 : ℚ) ∧
    fetch_iss_data inpBadMsg = none :=
  ⟨rfl, parseFloat_ok_lat,
    C8_message_not_success_no_write.1 inpBadMsg pBadMsg rfl (by decide)⟩

/-- Claim C9: a payload passing the transport-status, decode, schema and
success-marker checks, with parseable coordinates, produces exactly the
sample whose latitude and longitude are the parsed values and whose
timestamp is the UTC instant of the payload's unix-seconds timestamp field
(`convert_timestamp_for_influxdb` is the identity on unix seconds — the
source-reported instant, not any ingestion clock, which does not appear in
the pipeline at all). -/
theorem C9_sample_fields (inp : AttemptInput) (p : RawPayloadDoc) (qlat qlng : ℚ)
    (hf : inp.fetchOk = true) (hsc : inp.statusCode = 200)
    (hdec : inp.decoded = some p) (hsv : inp.schemaValid = true)
    (hmsg : p.message = "success")
    (hlat : convert_string_to_float p.latitude = some qlat)
    (hlng : convert_string_to_float p.longitude = some qlng) :
    fetch_iss_data inp = some ⟨p.message, p.timestamp, some qlat, some qlng⟩ ∧
    convert_timestamp_for_influxdb p.timestamp = p.timestamp := by
  refine ⟨?_, rfl⟩
  simp [fetch_iss_data, hf, hsc, hdec, hsv, check_api_response_code,
    check_json_message_success, hmsg, convert_json_content,
    convert_timestamp_for_influxdb, hlat, hlng]

/-- Witness for C9 at the concrete valid payload `pOk`. -/
theorem C9_witness :
    convert_string_to_float "12.5" = some (25/2 : ℚ) ∧
    convert_string_to_float "-7.25" = some (-29/4 : ℚ) ∧
    fetch_iss_data inpOk =
      some ⟨"success", 1700000000, some (25/2 : ℚ), some (-29/4 : ℚ)⟩ := by
  refine ⟨parseFloat_ok_lat, parseFloat_ok_lng, ?_⟩
  exact (C9_sample_fields inpOk pOk (25/2) (-29/4) rfl rfl rfl rfl rfl
    parseFloat_ok_lat parseFloat_ok_lng).1

end PHS
